import Mathlib

/-!
Verification of the artifact path resolver in `tfx/utils/path_utils.py`.

The resolver computes sub-locations of exported models under a base
`output_uri`, with fallback logic over filesystem-existence probes.  We
embed the filesystem as an abstract state giving the two read-only queries
the code uses (`exists` and the directory listing behind
`io_utils.get_only_uri_in_dir`), embed `os.path.join` with POSIX
semantics, and translate each resolver function directly from the source.
Fallible resolution returns `Except PathError String`.
-/

namespace PathUtils

/-- The read-only storage interface consumed by the resolver: an existence
probe (`fileio.exists`) and the immediate-children listing used by
`io_utils.get_only_uri_in_dir`.  `children` returns the names (relative
entries) of a directory's immediate children. -/
structure FileSystem where
  fexists : String → Bool
  children : String → List String

/-- Whether a string starts with the POSIX separator, as in Python's
`b.startswith(sep)` for `sep = "/"`. -/
def startsWithSep (s : String) : Bool :=
  match s.data with
  | [] => false
  | c :: _ => c == '/'

/-- Whether a string ends with the POSIX separator, as in Python's
`path.endswith(sep)` for `sep = "/"`. -/
def endsWithSep (s : String) : Bool :=
  match s.data.getLast? with
  | none => false
  | some c => c == '/'

/-- Python's `posixpath.join(a, b)`: if `b` is absolute it replaces `a`;
otherwise `b` is appended, inserting `/` unless `a` is empty or already
ends with `/`. -/
def os_path_join (a b : String) : String :=
  if startsWithSep b then b
  else if a == "" || endsWithSep a then a ++ b
  else a ++ "/" ++ b

/-- Python's `posixpath.join(a, b, c)` (left fold of the two-argument join). -/
def os_path_join3 (a b c : String) : String :=
  os_path_join (os_path_join a b) c

/-- The error taxonomy of the resolver: the "exactly one child"
precondition fails under a legacy-layout directory, carrying the directory
that was probed. -/
inductive PathError where
  | AmbiguousOrMissingExport : String → PathError
deriving DecidableEq

def _OLD_EVAL_MODEL_DIR : String := "eval_model_dir"

def _OLD_SERVING_MODEL_DIR : String := "serving_model_dir"

def EVAL_MODEL_DIR : String := "Format-TFMA"

def SERVING_MODEL_DIR : String := "Format-Serving"

def STAMPED_MODEL_DIR : String := "stamped_model"

/-- Modelled from the spec: `io_utils.get_only_uri_in_dir` is not under
`src/`.  Per the spec's "single subdirectory entry" helper, it lists the
directory's immediate children; if exactly one exists it returns its full
path, otherwise it signals the ambiguous-or-missing-export error. -/
def get_only_uri_in_dir (fs : FileSystem) (dir : String) : Except PathError String :=
  match fs.children dir with
  | [name] => Except.ok (os_path_join dir name)
  | _ => Except.error (PathError.AmbiguousOrMissingExport dir)

/-- `eval_model_dir` from the source: join `output_uri` with the legacy or
current eval-model directory name, selected by the flag. -/
def eval_model_dir (output_uri : String) (is_old_artifact : Bool) : String :=
  if is_old_artifact then os_path_join output_uri _OLD_EVAL_MODEL_DIR
  else os_path_join output_uri EVAL_MODEL_DIR

/-- `serving_model_dir` from the source: join `output_uri` with the legacy
or current serving-model directory name, selected by the flag. -/
def serving_model_dir (output_uri : String) (is_old_artifact : Bool) : String :=
  if is_old_artifact then os_path_join output_uri _OLD_SERVING_MODEL_DIR
  else os_path_join output_uri SERVING_MODEL_DIR

/-- `serving_model_path` from the source: if `<serving_model_dir>/export`
exists, resolve the single entry under it and then the single entry under
that (legacy estimator layout); otherwise return the serving model dir. -/
def serving_model_path (fs : FileSystem) (output_uri : String) (is_old_artifact : Bool) :
    Except PathError String :=
  let model_dir := serving_model_dir output_uri is_old_artifact
  let export_dir := os_path_join model_dir "export"
  if fs.fexists export_dir then do
    let model_dir ← get_only_uri_in_dir fs export_dir
    get_only_uri_in_dir fs model_dir
  else
    Except.ok model_dir

/-- `eval_model_path` from the source: if `<eval_model_dir>/saved_model.pb`
exists return the eval model dir; else if the eval model dir exists resolve
its single entry; else fall back to `serving_model_path`. -/
def eval_model_path (fs : FileSystem) (output_uri : String) (is_old_artifact : Bool) :
    Except PathError String :=
  let model_dir := eval_model_dir output_uri is_old_artifact
  let model_file := os_path_join model_dir "saved_model.pb"
  if fs.fexists model_file then Except.ok model_dir
  else if fs.fexists model_dir then get_only_uri_in_dir fs model_dir
  else serving_model_path fs output_uri is_old_artifact

/-- `stamped_model_path` from the source: lexical join with the stamped
model directory name. -/
def stamped_model_path (output_uri : String) : String :=
  os_path_join output_uri STAMPED_MODEL_DIR

/-- `warmup_file_path` from the source: lexical join of the SavedModel path
with `assets.extra/tf_serving_warmup_requests`. -/
def warmup_file_path (saved_model_path : String) : String :=
  os_path_join3 saved_model_path "assets.extra" "tf_serving_warmup_requests"

/-- The artifact type names relevant to `is_old_model_artifact`: `Model`
plus other artifact types from the external type registry. -/
inductive ArtifactTypeName where
  | Model
  | Examples
  | Schema
deriving DecidableEq

/-- A model artifact record as consumed by `is_old_model_artifact`: its
type and the recorded version number from the artifact-tracking system. -/
structure Artifact where
  type : ArtifactTypeName
  version : Nat
deriving DecidableEq

/-- Modelled from the spec: `artifact_utils._ARTIFACT_VERSION_FOR_MODEL_UPDATE`
is not under `src/`; the spec describes it as "a fixed threshold constant". -/
def _ARTIFACT_VERSION_FOR_MODEL_UPDATE : Nat := 1

/-- Modelled from the spec: `artifact_utils.is_artifact_version_older_than`
is not under `src/`; per the spec it compares the artifact's recorded
version number against a threshold. -/
def is_artifact_version_older_than (a : Artifact) (threshold : Nat) : Bool :=
  a.version < threshold

/-- `is_old_model_artifact` from the source: assert the artifact has type
`Model` (an assertion error otherwise, before any version comparison), then
return the version comparison against the fixed threshold. -/
def is_old_model_artifact (model_artifact : Artifact) : Except String Bool :=
  if model_artifact.type = ArtifactTypeName.Model then
    Except.ok (is_artifact_version_older_than model_artifact
      _ARTIFACT_VERSION_FOR_MODEL_UPDATE)
  else
    Except.error "Wrong artifact type, only accept Model."

/-- Helper: when a directory's listing does not have exactly one entry,
`get_only_uri_in_dir` signals the ambiguous-or-missing-export error. -/
theorem get_only_uri_in_dir_error_of_length_ne_one (fs : FileSystem) (d : String)
    (h : (fs.children d).length ≠ 1) :
    get_only_uri_in_dir fs d = Except.error (PathError.AmbiguousOrMissingExport d) := by
  cases hl : fs.children d with
  | nil => simp [get_only_uri_in_dir, hl]
  | cons x xs =>
    cases xs with
    | nil => exact absurd (by simp [hl]) h
    | cons y ys => simp [get_only_uri_in_dir, hl]

/-- Concrete storage state: nothing exists. -/
def fsEmpty : FileSystem where
  fexists := fun _ => false
  children := fun _ => []

/-- Concrete storage state for the legacy serving export layout:
`/o/Format-Serving/export` exists with single child `exp`, which has
single child `123`. -/
def fsLegacyServing : FileSystem where
  fexists := fun p => p == "/o/Format-Serving/export"
  children := fun p =>
    if p == "/o/Format-Serving/export" then ["exp"]
    else if p == "/o/Format-Serving/export/exp" then ["123"]
    else []

/-- Concrete storage state where `/o/Format-Serving/export` exists but is
empty. -/
def fsEmptyExport : FileSystem where
  fexists := fun p => p == "/o/Format-Serving/export"
  children := fun _ => []

/-- Concrete storage state where `/o/Format-TFMA/saved_model.pb` exists. -/
def fsFlatEval : FileSystem where
  fexists := fun p => p == "/o/Format-TFMA/saved_model.pb"
  children := fun _ => []

/-- Concrete storage state where `/o/Format-TFMA` exists with single child
`1593`, and `saved_model.pb` does not exist directly under it. -/
def fsLegacyEval : FileSystem where
  fexists := fun p => p == "/o/Format-TFMA"
  children := fun p => if p == "/o/Format-TFMA" then ["1593"] else []

/-- Concrete storage state with no eval model and an ambiguous serving
export: `/o/Format-Serving/export` exists with two children. -/
def fsNoEvalAmbiguousServing : FileSystem where
  fexists := fun p => p == "/o/Format-Serving/export"
  children := fun p =>
    if p == "/o/Format-Serving/export" then ["exp1", "exp2"] else []

end PathUtils

namespace PathUtils

/-- Claim C1: if `serving_model_dir(output_uri, is_old_artifact)/export`
exists and has exactly one child `a`, and that child has exactly one child
`b`, then `serving_model_path` returns `b`'s full path. -/
theorem serving_model_path_legacy_resolves (fs : FileSystem) (output_uri : String)
    (is_old_artifact : Bool) (a b : String)
    (hex : fs.fexists (os_path_join (serving_model_dir output_uri is_old_artifact) "export") = true)
    (ha : fs.children (os_path_join (serving_model_dir output_uri is_old_artifact) "export") = [a])
    (hb : fs.children
      (os_path_join (os_path_join (serving_model_dir output_uri is_old_artifact) "export") a) = [b]) :
    serving_model_path fs output_uri is_old_artifact =
      Except.ok (os_path_join
        (os_path_join (os_path_join (serving_model_dir output_uri is_old_artifact) "export") a) b) := by
  simp [serving_model_path, hex, get_only_uri_in_dir, ha, hb, Bind.bind, Except.bind]

/-- Witness for C1 at the concrete state `fsLegacyServing`. -/
theorem serving_model_path_legacy_resolves_witness :
    fsLegacyServing.fexists (os_path_join (serving_model_dir "/o" false) "export") = true ∧
    fsLegacyServing.children (os_path_join (serving_model_dir "/o" false) "export") = ["exp"] ∧
    serving_model_path fsLegacyServing "/o" false =
      Except.ok "/o/Format-Serving/export/exp/123" :=
  ⟨rfl, rfl, serving_model_path_legacy_resolves fsLegacyServing "/o" false "exp" "123" rfl rfl rfl⟩

/-- Claim C2: if `serving_model_dir(output_uri, flag)/export` exists but
its number of children is not one, `serving_model_path` signals the
`AmbiguousOrMissingExport` error instead of returning a path. -/
theorem serving_model_path_ambiguous_export (fs : FileSystem) (output_uri : String)
    (is_old_artifact : Bool)
    (hex : fs.fexists (os_path_join (serving_model_dir output_uri is_old_artifact) "export") = true)
    (hn : (fs.children (os_path_join (serving_model_dir output_uri is_old_artifact) "export")).length ≠ 1) :
    serving_model_path fs output_uri is_old_artifact =
      Except.error (PathError.AmbiguousOrMissingExport
        (os_path_join (serving_model_dir output_uri is_old_artifact) "export")) := by
  simp only [serving_model_path, hex, if_true]
  rw [get_only_uri_in_dir_error_of_length_ne_one fs _ hn]
  rfl

/-- Witness for C2 at the concrete state `fsEmptyExport` (zero children). -/
theorem serving_model_path_ambiguous_export_witness :
    fsEmptyExport.fexists (os_path_join (serving_model_dir "/o" false) "export") = true ∧
    (fsEmptyExport.children (os_path_join (serving_model_dir "/o" false) "export")).length ≠ 1 ∧
    serving_model_path fsEmptyExport "/o" false =
      Except.error (PathError.AmbiguousOrMissingExport "/o/Format-Serving/export") :=
  ⟨rfl, by decide,
   serving_model_path_ambiguous_export fsEmptyExport "/o" false rfl (by decide)⟩

/-- Claim C3: if `eval_model_dir(output_uri, flag)/saved_model.pb` exists,
`eval_model_path` returns the eval model dir unchanged; if that file does
not exist but the eval model dir exists with exactly one child `c`,
`eval_model_path` returns `c`'s full path. -/
theorem eval_model_path_direct_cases (fs : FileSystem) (output_uri : String)
    (is_old_artifact : Bool) (c : String) :
    (fs.fexists (os_path_join (eval_model_dir output_uri is_old_artifact) "saved_model.pb") = true →
      eval_model_path fs output_uri is_old_artifact =
        Except.ok (eval_model_dir output_uri is_old_artifact)) ∧
    (fs.fexists (os_path_join (eval_model_dir output_uri is_old_artifact) "saved_model.pb") = false →
      fs.fexists (eval_model_dir output_uri is_old_artifact) = true →
      fs.children (eval_model_dir output_uri is_old_artifact) = [c] →
      eval_model_path fs output_uri is_old_artifact =
        Except.ok (os_path_join (eval_model_dir output_uri is_old_artifact) c)) := by
  constructor
  · intro h
    simp [eval_model_path, h]
  · intro h1 h2 h3
    simp [eval_model_path, h1, h2, get_only_uri_in_dir, h3]

/-- Witness for C3 at the concrete states `fsFlatEval` and `fsLegacyEval`. -/
theorem eval_model_path_direct_cases_witness :
    fsFlatEval.fexists (os_path_join (eval_model_dir "/o" false) "saved_model.pb") = true ∧
    eval_model_path fsFlatEval "/o" false = Except.ok "/o/Format-TFMA" ∧
    fsLegacyEval.fexists (os_path_join (eval_model_dir "/o" false) "saved_model.pb") = false ∧
    fsLegacyEval.fexists (eval_model_dir "/o" false) = true ∧
    eval_model_path fsLegacyEval "/o" false = Except.ok "/o/Format-TFMA/1593" :=
  ⟨rfl, (eval_model_path_direct_cases fsFlatEval "/o" false "").1 rfl,
   rfl, rfl, (eval_model_path_direct_cases fsLegacyEval "/o" false "1593").2 rfl rfl rfl⟩

/-- Claim C4: if neither `eval_model_dir(output_uri, f)/saved_model.pb`
nor `eval_model_dir(output_uri, f)` exists, `eval_model_path` equals
`serving_model_path` at the same arguments and storage state. -/
theorem eval_model_path_falls_back_to_serving (fs : FileSystem) (output_uri : String)
    (is_old_artifact : Bool)
    (h1 : fs.fexists (os_path_join (eval_model_dir output_uri is_old_artifact) "saved_model.pb") = false)
    (h2 : fs.fexists (eval_model_dir output_uri is_old_artifact) = false) :
    eval_model_path fs output_uri is_old_artifact =
      serving_model_path fs output_uri is_old_artifact := by
  simp [eval_model_path, h1, h2]

/-- Witness for C4 at the concrete state `fsEmpty`. -/
theorem eval_model_path_falls_back_to_serving_witness :
    fsEmpty.fexists (os_path_join (eval_model_dir "/o" false) "saved_model.pb") = false ∧
    fsEmpty.fexists (eval_model_dir "/o" false) = false ∧
    eval_model_path fsEmpty "/o" false = serving_model_path fsEmpty "/o" false :=
  ⟨rfl, rfl, eval_model_path_falls_back_to_serving fsEmpty "/o" false rfl rfl⟩

/-- Claim C6: if `serving_model_dir(output_uri, flag)/export` does not
exist, `serving_model_path` returns exactly the serving model dir. -/
theorem serving_model_path_flat (fs : FileSystem) (output_uri : String)
    (is_old_artifact : Bool)
    (h : fs.fexists (os_path_join (serving_model_dir output_uri is_old_artifact) "export") = false) :
    serving_model_path fs output_uri is_old_artifact =
      Except.ok (serving_model_dir output_uri is_old_artifact) := by
  simp [serving_model_path, h]

/-- Witness for C6 at the concrete state `fsEmpty`. -/
theorem serving_model_path_flat_witness :
    fsEmpty.fexists (os_path_join (serving_model_dir "/o" false) "export") = false ∧
    serving_model_path fsEmpty "/o" false = Except.ok "/o/Format-Serving" :=
  ⟨rfl, serving_model_path_flat fsEmpty "/o" false rfl⟩

/-- Claim C8: all six resolver operations are deterministic and stateless:
they are pure functions of their arguments and the storage state's
observable queries, so two calls with identical arguments under storage
states that answer every query identically yield identical outputs, and
repeating a call changes nothing. -/
theorem resolvers_deterministic (fs1 fs2 : FileSystem) (u : String) (f : Bool)
    (hex : ∀ p, fs1.fexists p = fs2.fexists p)
    (hch : ∀ p, fs1.children p = fs2.children p) :
    serving_model_dir u f = serving_model_dir u f ∧
    serving_model_path fs1 u f = serving_model_path fs2 u f ∧
    eval_model_dir u f = eval_model_dir u f ∧
    eval_model_path fs1 u f = eval_model_path fs2 u f ∧
    stamped_model_path u = stamped_model_path u ∧
    warmup_file_path u = warmup_file_path u := by
  obtain ⟨e1, c1⟩ := fs1
  obtain ⟨e2, c2⟩ := fs2
  have he : e1 = e2 := funext hex
  have hc : c1 = c2 := funext hch
  subst he
  subst hc
  exact ⟨rfl, rfl, rfl, rfl, rfl, rfl⟩

/-- Witness for C8 at the concrete state `fsEmpty` (the same state given
twice, answering every query identically). -/
theorem resolvers_deterministic_witness :
    serving_model_dir "/o" false = serving_model_dir "/o" false ∧
    serving_model_path fsEmpty "/o" false = serving_model_path fsEmpty "/o" false ∧
    eval_model_dir "/o" false = eval_model_dir "/o" false ∧
    eval_model_path fsEmpty "/o" false = eval_model_path fsEmpty "/o" false ∧
    stamped_model_path "/o" = stamped_model_path "/o" ∧
    warmup_file_path "/o" = warmup_file_path "/o" :=
  resolvers_deterministic fsEmpty fsEmpty "/o" false (fun _ => rfl) (fun _ => rfl)

/-- Claim C9: `is_old_model_artifact` fails with the assertion error on
every artifact whose type is not `Model`, before any version comparison,
and on every `Model` artifact returns the version comparison against the
fixed threshold constant. -/
theorem is_old_model_artifact_requires_model (a : Artifact) :
    (a.type ≠ ArtifactTypeName.Model →
      is_old_model_artifact a = Except.error "Wrong artifact type, only accept Model.") ∧
    (a.type = ArtifactTypeName.Model →
      is_old_model_artifact a =
        Except.ok (is_artifact_version_older_than a _ARTIFACT_VERSION_FOR_MODEL_UPDATE)) := by
  constructor
  · intro h
    simp [is_old_model_artifact, h]
  · intro h
    simp [is_old_model_artifact, h]

/-- Witness for C9 at a non-`Model` artifact and a `Model` artifact. -/
theorem is_old_model_artifact_requires_model_witness :
    (Artifact.mk ArtifactTypeName.Examples 0).type ≠ ArtifactTypeName.Model ∧
    is_old_model_artifact (Artifact.mk ArtifactTypeName.Examples 0) =
      Except.error "Wrong artifact type, only accept Model." ∧
    is_old_model_artifact (Artifact.mk ArtifactTypeName.Model 0) =
      Except.ok (is_artifact_version_older_than (Artifact.mk ArtifactTypeName.Model 0)
        _ARTIFACT_VERSION_FOR_MODEL_UPDATE) :=
  ⟨by decide,
   (is_old_model_artifact_requires_model (Artifact.mk ArtifactTypeName.Examples 0)).1 (by decide),
   (is_old_model_artifact_requires_model (Artifact.mk ArtifactTypeName.Model 0)).2 rfl⟩

/-- Claim C10: when neither of the eval-model locations exists and the
serving export dir exists with a number of children different from one,
`eval_model_path` signals the ambiguous-export error rather than
returning a path. -/
theorem eval_model_path_fallback_can_fail (fs : FileSystem) (output_uri : String)
    (is_old_artifact : Bool)
    (h1 : fs.fexists (os_path_join (eval_model_dir output_uri is_old_artifact) "saved_model.pb") = false)
    (h2 : fs.fexists (eval_model_dir output_uri is_old_artifact) = false)
    (h3 : fs.fexists (os_path_join (serving_model_dir output_uri is_old_artifact) "export") = true)
    (h4 : (fs.children (os_path_join (serving_model_dir output_uri is_old_artifact) "export")).length ≠ 1) :
    eval_model_path fs output_uri is_old_artifact =
      Except.error (PathError.AmbiguousOrMissingExport
        (os_path_join (serving_model_dir output_uri is_old_artifact) "export")) := by
  simp only [eval_model_path, h1, h2, if_false, serving_model_path, h3, if_true]
  rw [get_only_uri_in_dir_error_of_length_ne_one fs _ h4]
  rfl

/-- Witness for C10 at the concrete state `fsNoEvalAmbiguousServing`
(two children under the serving export directory). -/
theorem eval_model_path_fallback_can_fail_witness :
    fsNoEvalAmbiguousServing.fexists
      (os_path_join (eval_model_dir "/o" false) "saved_model.pb") = false ∧
    fsNoEvalAmbiguousServing.fexists (eval_model_dir "/o" false) = false ∧
    fsNoEvalAmbiguousServing.fexists
      (os_path_join (serving_model_dir "/o" false) "export") = true ∧
    eval_model_path fsNoEvalAmbiguousServing "/o" false =
      Except.error (PathError.AmbiguousOrMissingExport "/o/Format-Serving/export") :=
  ⟨rfl, rfl, rfl,
   eval_model_path_fallback_can_fail fsNoEvalAmbiguousServing "/o" false rfl rfl rfl (by decide)⟩

/-- Claim C5: `serving_model_dir` joins `output_uri` with
`"serving_model_dir"` when the flag is true and `"Format-Serving"` when it
is false, and `eval_model_dir` joins with `"eval_model_dir"` and
`"Format-TFMA"` respectively; both are total pure functions (no I/O, no
failure, by their types). -/
theorem model_dir_selects_by_flag (output_uri : String) :
    serving_model_dir output_uri true = os_path_join output_uri "serving_model_dir" ∧
    serving_model_dir output_uri false = os_path_join output_uri "Format-Serving" ∧
    eval_model_dir output_uri true = os_path_join output_uri "eval_model_dir" ∧
    eval_model_dir output_uri false = os_path_join output_uri "Format-TFMA" :=
  ⟨rfl, rfl, rfl, rfl⟩

/-- Claim C7: `stamped_model_path` and `warmup_file_path` are purely
lexical joins (their types take no filesystem state): `stamped_model_path
"/root"` is `/root/stamped_model` and `warmup_file_path "/root/serving"`
is `/root/serving/assets.extra/tf_serving_warmup_requests`. -/
theorem lexical_join_paths :
    stamped_model_path "/root" = "/root/stamped_model" ∧
    warmup_file_path "/root/serving" =
      "/root/serving/assets.extra/tf_serving_warmup_requests" := by
  constructor <;> rfl

end PathUtils
